import Mathlib

/-!
Shallow embedding of `src/main.py` (ExpenseTracker), a one-shot batch job that
scans an IMAP inbox for unread receipt/invoice mails, extracts a fixed
four-field expense record per mail, and appends one row per record to a Google
spreadsheet (creating it when absent).

External systems (the IMAP server, the Sheets and Drive services, the OAuth
library) are modelled by explicit state: a list of messages with read flags, a
drive holding spreadsheets as lists of rows, and oracle fields for the
credential flow outcomes.  The search response of the mail server is modelled
from the spec's Mailbox Scanner contract (identifiers of the unread messages
whose subject contains "receipt" or "invoice"); the literal query string the
code sends to the server is analysed separately against the IMAP search-key
grammar of RFC 3501.
-/

namespace ExpenseTracker

/-- Value of a Python expression as written to a dict entry or a sheet cell:
a string or a number (the code only writes the float constant `0.0`, modelled
exactly as the rational `0`). -/
inductive PyVal where
  | str (s : String)
  | num (q : Rat)
deriving DecidableEq

/-- A Python dict with string keys, as an association list in insertion order
(the literal of `extract_expense_data` lists its four keys in order). -/
abbrev PyDict := List (String × PyVal)

/-- One spreadsheet row (list of cell values). -/
abbrev Row := List PyVal

/-- Truthiness of a Python dict: falsy exactly when empty.  This is the test
performed by `if expense_data:` at `src/main.py:88`. -/
def pyTruthyDict (d : PyDict) : Bool := !d.isEmpty

/-- Python `d[k]` for the dicts this program builds; the keys looked up are
always present, so the default value of the empty-dict case is never reached
on any program path. -/
def dictGet (d : PyDict) (k : String) : PyVal :=
  match d with
  | [] => PyVal.str ""
  | (k2, v) :: rest => if k2 == k then v else dictGet rest k

/-- Whether `pat` is a prefix of the character list. -/
def charsHavePre : List Char → List Char → Bool
  | [], _ => true
  | _ :: _, [] => false
  | a :: as, b :: bs => a == b && charsHavePre as bs

/-- Whether `pat` occurs as a contiguous sublist. -/
def charsHaveSub (pat : List Char) : List Char → Bool
  | [] => charsHavePre pat []
  | c :: cs => charsHavePre pat (c :: cs) || charsHaveSub pat cs

/-- Case-sensitive substring test on strings (the spec's reading of the
SUBJECT search key: "case-sensitive substring match"). -/
def strContainsSub (s pat : String) : Bool := charsHaveSub pat.data s.data

/-- Fields of `config.yaml` that the program reads. -/
structure Config where
  imap_server : String
  imap_port : Nat
  spreadsheet_name : String
  worksheet_name : String
deriving DecidableEq

/-- The scope list from `src/main.py:13-17`. -/
def SCOPES : List String :=
  ["https://www.googleapis.com/auth/spreadsheets",
   "https://www.googleapis.com/auth/gmail.readonly",
   "https://www.googleapis.com/auth/drive"]

/-- One inbox message: subject header, the message's own date header (read by
nothing in the code), its read flag, and `fetchErr` modelling whether the
`mail.fetch`/parse step for this message raises (`some e` carries the error
text); `none` means the fetch succeeds. -/
structure Msg where
  subject : String
  msgDate : String
  read : Bool
  fetchErr : Option String
deriving DecidableEq

/-- Whether fetching this message succeeds. -/
def Msg.fetchOk (m : Msg) : Bool := m.fetchErr.isNone

/-- The Mailbox Scanner filter from the spec: unread, and subject contains
"receipt" or "invoice" (case-sensitive substring). -/
def matchesFilter (m : Msg) : Bool :=
  !m.read && (strContainsSub m.subject "receipt" || strContainsSub m.subject "invoice")

/-- Modelled from the spec: the identifier list the IMAP server returns for
the search (positions of messages satisfying the Mailbox Scanner contract
"unread AND (subject contains receipt OR subject contains invoice)").  The
server itself is not repository code; the query string the code actually
issues is analysed separately by the RFC 3501 parser below. -/
def searchUnseenSubjectIds : List Msg → List Nat
  | [] => []
  | m :: ms =>
    (if matchesFilter m then [0] else []) ++ (searchUnseenSubjectIds ms).map (· + 1)

/-- `extract_expense_data` (`src/main.py:109-120`): reads only the subject
header and the run-time date, returns the four-entry dict literal. -/
def extract_expense_data (m : Msg) (today : String) : PyDict :=
  [("date", PyVal.str today),
   ("description", PyVal.str m.subject),
   ("amount", PyVal.num 0),
   ("category", PyVal.str "Other")]

/-- One spreadsheet file on Drive: its id, title, the single worksheet's
title and frozen-row count, and its cell rows. -/
structure Spreadsheet where
  sid : Nat
  title : String
  worksheetTitle : String
  frozenRowCount : Nat
  cells : List Row
deriving DecidableEq

/-- The Drive state: the stored spreadsheet files and the id the service
assigns to the next created file. -/
structure DriveState where
  files : List Spreadsheet
  nextId : Nat
deriving DecidableEq

/-- `drive_service.files().list(q=name & mimeType)` followed by taking
`files[0]`: the first stored file whose title equals `n`. -/
def findIn : List Spreadsheet → String → Option Spreadsheet
  | [], _ => none
  | s :: rest, n => if s.title == n then some s else findIn rest n

/-- Well-formedness of the Drive state: stored ids are distinct and below the
next fresh id (the service never hands out a duplicate id). -/
def DriveWf (d : DriveState) : Prop :=
  (d.files.map Spreadsheet.sid).Nodup ∧ ∀ s ∈ d.files, s.sid < d.nextId

/-- The header row written by the `values().update` call at
`src/main.py:175-181`. -/
def headerRow : Row :=
  [PyVal.str "Date", PyVal.str "Description", PyVal.str "Amount", PyVal.str "Category"]

/-- `get_or_create_spreadsheet` (`src/main.py:145-183`): resolve by name via
file search, else create a spreadsheet with one worksheet (frozen first row)
and write the header row, returning the spreadsheet id. -/
def get_or_create_spreadsheet (cfg : Config) (d : DriveState) : DriveState × Nat :=
  match findIn d.files cfg.spreadsheet_name with
  | some s => (d, s.sid)
  | none =>
    ({ files := d.files ++
        [{ sid := d.nextId, title := cfg.spreadsheet_name,
           worksheetTitle := cfg.worksheet_name, frozenRowCount := 1,
           cells := [headerRow] }],
       nextId := d.nextId + 1 }, d.nextId)

/-- `values().append` on the file with id `i`: add the row past the existing
data of that spreadsheet. -/
def appendRowTo : List Spreadsheet → Nat → Row → List Spreadsheet
  | [], _, _ => []
  | s :: rest, i, row =>
    (if s.sid == i then { s with cells := s.cells ++ [row] } else s) :: appendRowTo rest i row

/-- The four-cell row `add_to_sheet` builds from the expense dict
(`src/main.py:127-132`). -/
def rowOfDict (dic : PyDict) : Row :=
  [dictGet dic "date", dictGet dic "description", dictGet dic "amount", dictGet dic "category"]

/-- `add_to_sheet` (`src/main.py:122-143`): get-or-create the spreadsheet,
then append the record's row to it. -/
def add_to_sheet (cfg : Config) (d : DriveState) (expense_data : PyDict) : DriveState :=
  let r := get_or_create_spreadsheet cfg d
  { files := appendRowTo r.1.files r.2 (rowOfDict expense_data), nextId := r.1.nextId }

/-- Cell rows of the first spreadsheet titled `n` (empty when none exists). -/
def sheetCells (d : DriveState) (n : String) : List Row :=
  match findIn d.files n with
  | some s => s.cells
  | none => []

/-- The whole mutable world the run touches: inbox, Drive, captured standard
output. -/
structure WorldState where
  msgs : List Msg
  drive : DriveState
  log : List String
deriving DecidableEq

/-- Behaviour of the mail connection for this run: whether `IMAP4_SSL`,
`login`, `logout` raise (with the error text), and the `EMAIL_USER` value
echoed by the connect print. -/
structure ConnSpec where
  connectErr : Option String
  loginErr : Option String
  logoutErr : Option String
  emailUser : String
deriving DecidableEq

/-- Outcome of a Python call: normal return or a raised exception. -/
inductive PyResult (α : Type) where
  | ok (a : α)
  | exc (e : String)
deriving DecidableEq

/-- The loop body for one message id (`src/main.py:79-98`): fetch the message
(a raised error is caught, printed and skipped), extract the record, and when
the record is truthy append it to the sheet and set the read flag. -/
def processOne (cfg : Config) (today : String) (st : WorldState) (i : Nat) : WorldState :=
  match st.msgs[i]? with
  | none => st
  | some m =>
    match m.fetchErr with
    | some e => { st with log := st.log ++ ["Error processing message: " ++ e] }
    | none =>
      let expense_data := extract_expense_data m today
      if pyTruthyDict expense_data then
        { msgs := st.msgs.set i { m with read := true },
          drive := add_to_sheet cfg st.drive expense_data,
          log := st.log ++ ["Processing email: " ++ m.subject,
                            "Successfully processed: " ++ m.subject] }
      else
        { st with log := st.log ++ ["Processing email: " ++ m.subject] }

/-- The per-message loop over the searched identifiers. -/
def processLoop (cfg : Config) (today : String) (st : WorldState) (ids : List Nat) : WorldState :=
  ids.foldl (processOne cfg today) st

/-- The `try` body of `process_emails` (`src/main.py:52-98`): connect, login,
search, early return on an empty result, otherwise run the loop.  The second
component is the exception escaping the body, if any. -/
def tryBody (cfg : Config) (conn : ConnSpec) (today : String) (st : WorldState) :
    WorldState × Option String :=
  match conn.connectErr with
  | some e => (st, some e)
  | none =>
    match conn.loginErr with
    | some e => (st, some e)
    | none =>
      let st1 : WorldState :=
        { st with log := st.log ++ ["Connected to email: " ++ conn.emailUser] }
      let ids := searchUnseenSubjectIds st1.msgs
      if ids.isEmpty then
        ({ st1 with log := st1.log ++ ["No new receipts or invoices found."] }, none)
      else
        (processLoop cfg today
          { st1 with log := st1.log ++
              ["Found " ++ toString ids.length ++ " new messages to process."] } ids, none)

/-- The `finally` block (`src/main.py:103-107`): `try: mail.logout()` under a
bare `except: pass`.  When the connection constructor raised, `mail` is
unbound and the attempt raises a NameError; either way the bare except
swallows the exception. -/
def finallyLogout (conn : ConnSpec) (mailBound : Bool) : PyResult Unit :=
  let attempt : PyResult Unit :=
    if mailBound then
      match conn.logoutErr with
      | some e => PyResult.exc e
      | none => PyResult.ok ()
    else PyResult.exc "NameError: name mail is not defined"
  match attempt with
  | PyResult.exc _ => PyResult.ok ()
  | PyResult.ok _ => PyResult.ok ()

/-- What one call of `process_emails` leaves behind: the final world, whether
the `finally` block attempted the logout (it always runs), and the outcome of
that attempt. -/
structure RunOutcome where
  state : WorldState
  logoutAttempted : Bool
  logoutResult : PyResult Unit
deriving DecidableEq

/-- `process_emails` (`src/main.py:50-107`): the `try` body, the outer
`except` printing a connection-level error, and the `finally` block. -/
def process_emails (cfg : Config) (conn : ConnSpec) (today : String) (st : WorldState) :
    RunOutcome :=
  let r := tryBody cfg conn today st
  let st2 : WorldState :=
    match r.2 with
    | some e => { r.1 with log := r.1.log ++ ["Error connecting to email: " ++ e] }
    | none => r.1
  { state := st2,
    logoutAttempted := true,
    logoutResult := finallyLogout conn conn.connectErr.isNone }

/-- An OAuth credential as far as the code inspects it: `valid`, `expired`,
presence of a refresh token, and the scopes it was issued for. -/
structure Creds where
  valid : Bool
  expired : Bool
  hasRefreshToken : Bool
  scopes : List String
deriving DecidableEq

/-- The environment `authenticate_google` runs in: the cached `token.pickle`
content if the file exists, and the credentials the external library would
return from a silent refresh resp. from the interactive consent flow. -/
structure AuthEnv where
  cached : Option Creds
  refreshResult : Creds
  flowResult : Creds
deriving DecidableEq

/-- What `authenticate_google` leaves behind: the credential used to build the
services, whether the interactive flow ran, and what (if anything) was written
to `token.pickle`. -/
structure AuthOutcome where
  creds : Creds
  ranInteractiveFlow : Bool
  wroteTokenFile : Option Creds
deriving DecidableEq

/-- `authenticate_google` (`src/main.py:29-48`): reuse a valid cached token;
refresh silently when it is expired with a refresh token; otherwise run the
interactive flow; persist the credential whenever a new one was obtained. -/
def authenticate_google (env : AuthEnv) : AuthOutcome :=
  match env.cached with
  | some c =>
    if c.valid then { creds := c, ranInteractiveFlow := false, wroteTokenFile := none }
    else if c.expired && c.hasRefreshToken then
      { creds := env.refreshResult, ranInteractiveFlow := false,
        wroteTokenFile := some env.refreshResult }
    else
      { creds := env.flowResult, ranInteractiveFlow := true,
        wroteTokenFile := some env.flowResult }
  | none =>
    { creds := env.flowResult, ranInteractiveFlow := true,
      wroteTokenFile := some env.flowResult }

/-- Content of `token.pickle` after `authenticate_google`: the newly written
credential, or the untouched cached one. -/
def tokenFileAfter (env : AuthEnv) : Option Creds :=
  match (authenticate_google env).wroteTokenFile with
  | some c => some c
  | none => env.cached

/-- Tokens of the IMAP SEARCH criteria grammar: parentheses, atoms, quoted
strings. -/
inductive Tok where
  | lpar
  | rpar
  | atomTok (s : String)
  | strTok (s : String)
deriving DecidableEq

/-- Characters ending an atom in the search criteria syntax. -/
def isDelim (c : Char) : Bool := c == ' ' || c == '(' || c == ')' || c == '"'

/-- Read an atom: the longest delimiter-free prefix, plus the remainder. -/
def readAtomChars : List Char → List Char × List Char
  | [] => ([], [])
  | c :: cs =>
    if isDelim c then ([], c :: cs)
    else
      let r := readAtomChars cs
      (c :: r.1, r.2)

/-- Read the body of a quoted string up to the closing quote. -/
def readQuoted : List Char → Option (List Char × List Char)
  | [] => none
  | c :: cs =>
    if c == '"' then some ([], cs)
    else
      match readQuoted cs with
      | some (q, rest) => some (c :: q, rest)
      | none => none

/-- Tokenize a search criteria string (fuel-bounded; every step consumes at
least one character, so fuel equal to the length suffices). -/
def tokenizeAux : Nat → List Char → Option (List Tok)
  | _, [] => some []
  | 0, _ :: _ => none
  | fuel + 1, c :: cs =>
    if c == ' ' then tokenizeAux fuel cs
    else if c == '(' then (tokenizeAux fuel cs).map (Tok.lpar :: ·)
    else if c == ')' then (tokenizeAux fuel cs).map (Tok.rpar :: ·)
    else if c == '"' then
      match readQuoted cs with
      | some (q, rest) => (tokenizeAux fuel rest).map (Tok.strTok (String.mk q) :: ·)
      | none => none
    else
      let r := readAtomChars (c :: cs)
      (tokenizeAux fuel r.2).map (Tok.atomTok (String.mk r.1) :: ·)

/-- Tokenize a whole query string. -/
def tokenize (q : String) : Option (List Tok) := tokenizeAux q.data.length q.data

/-- IMAP search keys relevant to the issued query, per RFC 3501: `UNSEEN`,
`SUBJECT <string>`, the two-operand prefix `OR`, and conjunction (a
parenthesized key list). -/
inductive SearchKey where
  | unseen
  | subjectKey (s : String)
  | orKey (k1 k2 : SearchKey)
  | andKey (k1 k2 : SearchKey)
deriving DecidableEq

/-- Recursive-descent parser for one RFC 3501 search key.  A parenthesized
list `( k1 k2 ... kn )` is the conjunction of its keys; `OR` must be followed
by exactly two keys.  Fuel-bounded; each recursive call strictly decreases the
fuel. -/
def parseKey : Nat → List Tok → Option (SearchKey × List Tok)
  | 0, _ => none
  | fuel + 1, toks =>
    match toks with
    | Tok.lpar :: rest =>
      match parseKey fuel rest with
      | none => none
      | some (k, rest1) =>
        match rest1 with
        | Tok.rpar :: r2 => some (k, r2)
        | _ =>
          match parseKey fuel (Tok.lpar :: rest1) with
          | none => none
          | some (k2, r2) => some (SearchKey.andKey k k2, r2)
    | Tok.atomTok a :: rest =>
      if a == "UNSEEN" then some (SearchKey.unseen, rest)
      else if a == "OR" then
        match parseKey fuel rest with
        | none => none
        | some (k1, r1) =>
          match parseKey fuel r1 with
          | none => none
          | some (k2, r2) => some (SearchKey.orKey k1 k2, r2)
      else if a == "SUBJECT" then
        match rest with
        | Tok.strTok s :: r => some (SearchKey.subjectKey s, r)
        | Tok.atomTok s :: r => some (SearchKey.subjectKey s, r)
        | _ => none
      else none
    | _ => none

/-- Parse a complete search criteria string: tokenize, parse one key, and
require every token to be consumed. -/
def parseSearchQuery (q : String) : Option SearchKey :=
  match tokenize q with
  | none => none
  | some toks =>
    match parseKey (2 * toks.length + 4) toks with
    | some (k, []) => some k
    | _ => none

/-- Which messages a search key selects. -/
def SearchKey.matches : SearchKey → Msg → Bool
  | SearchKey.unseen, m => !m.read
  | SearchKey.subjectKey s, m => strContainsSub m.subject s
  | SearchKey.orKey a b, m => a.matches m || b.matches m
  | SearchKey.andKey a b, m => a.matches m && b.matches m

/-- The literal search criteria string issued at `src/main.py:69`. -/
def issuedSearchQuery : String := "(UNSEEN SUBJECT \"receipt\" OR SUBJECT \"invoice\")"

/-- The read-flag/append effect one run has on a single message: messages that
match the filter and fetch successfully come back marked read, all others come
back untouched. -/
def procStep (m : Msg) : Msg :=
  if matchesFilter m && m.fetchOk then { m with read := true } else m

/-- Messages that both match the search filter and fetch without error, i.e.
exactly those that get a row appended and their flag set. -/
def procOkFilter (m : Msg) : Bool := matchesFilter m && m.fetchOk

/-- The Drive state after appending, in order, one record per message of
`ms`. -/
def procSheet (cfg : Config) (today : String) : DriveState → List Msg → DriveState
  | d, [] => d
  | d, m :: ms => procSheet cfg today (add_to_sheet cfg d (extract_expense_data m today)) ms

/-- The stdout lines the loop body emits for one searched message. -/
def procLog (m : Msg) : List String :=
  match m.fetchErr with
  | some e => ["Error processing message: " ++ e]
  | none => ["Processing email: " ++ m.subject, "Successfully processed: " ++ m.subject]

/-- Concatenated loop stdout over a message list. -/
def procLogs : List Msg → List String
  | [] => []
  | m :: ms => procLog m ++ procLogs ms

theorem findIn_mem : ∀ (fs : List Spreadsheet) (n : String) (s : Spreadsheet),
    findIn fs n = some s → s ∈ fs := by
  intro fs
  induction fs with
  | nil => intro n s h; simp [findIn] at h
  | cons t rest ih =>
    intro n s h
    rw [findIn] at h
    by_cases ht : (t.title == n) = true
    · rw [if_pos ht] at h
      injection h with h
      exact h ▸ List.mem_cons_self t rest
    · rw [if_neg ht] at h
      exact List.mem_cons_of_mem t (ih n s h)

theorem findIn_title : ∀ (fs : List Spreadsheet) (n : String) (s : Spreadsheet),
    findIn fs n = some s → s.title = n := by
  intro fs
  induction fs with
  | nil => intro n s h; simp [findIn] at h
  | cons t rest ih =>
    intro n s h
    rw [findIn] at h
    by_cases ht : (t.title == n) = true
    · rw [if_pos ht] at h
      injection h with h
      exact h ▸ eq_of_beq ht
    · rw [if_neg ht] at h
      exact ih n s h

theorem appendRow_not_mem (i : Nat) (row : Row) :
    ∀ (fs : List Spreadsheet), i ∉ fs.map Spreadsheet.sid →
      appendRowTo fs i row = fs := by
  intro fs
  induction fs with
  | nil => intro _; rfl
  | cons t rest ih =>
    intro h
    simp only [List.map_cons, List.mem_cons, not_or] at h
    have h1 : (t.sid == i) = false := beq_eq_false_iff_ne.mpr (fun hh => h.1 hh.symm)
    simp [appendRowTo, h1, ih h.2]

theorem appendRow_sids (i : Nat) (row : Row) :
    ∀ (fs : List Spreadsheet),
      (appendRowTo fs i row).map Spreadsheet.sid = fs.map Spreadsheet.sid := by
  intro fs
  induction fs with
  | nil => rfl
  | cons t rest ih =>
    by_cases h : (t.sid == i) = true
    · simp [appendRowTo, h, ih]
    · simp only [Bool.not_eq_true] at h
      simp [appendRowTo, h, ih]

theorem appendRow_length (i : Nat) (row : Row) :
    ∀ (fs : List Spreadsheet), (appendRowTo fs i row).length = fs.length := by
  intro fs
  induction fs with
  | nil => rfl
  | cons t rest ih => simp [appendRowTo, ih]

theorem appendRow_append (i : Nat) (row : Row) (ys : List Spreadsheet) :
    ∀ (xs : List Spreadsheet),
      appendRowTo (xs ++ ys) i row = appendRowTo xs i row ++ appendRowTo ys i row := by
  intro xs
  induction xs with
  | nil => rfl
  | cons t rest ih => simp [appendRowTo, ih]

theorem findIn_append (n : String) (ys : List Spreadsheet) :
    ∀ (xs : List Spreadsheet),
      findIn (xs ++ ys) n =
        (match findIn xs n with
         | some s => some s
         | none => findIn ys n) := by
  intro xs
  induction xs with
  | nil => simp [findIn]
  | cons t rest ih =>
    by_cases ht : (t.title == n) = true
    · simp [findIn, ht]
    · simp only [Bool.not_eq_true] at ht
      simp [findIn, ht, ih]

theorem appendRow_find (n : String) (row : Row) :
    ∀ (fs : List Spreadsheet) (s : Spreadsheet),
      (fs.map Spreadsheet.sid).Nodup → findIn fs n = some s →
      findIn (appendRowTo fs s.sid row) n = some { s with cells := s.cells ++ [row] } := by
  intro fs
  induction fs with
  | nil => intro s _ h; simp [findIn] at h
  | cons t rest ih =>
    intro s hnd hf
    simp only [List.map_cons, List.nodup_cons] at hnd
    obtain ⟨hts, hnd2⟩ := hnd
    rw [findIn] at hf
    by_cases ht : (t.title == n) = true
    · rw [if_pos ht] at hf
      injection hf with hf
      subst hf
      simp [appendRowTo, findIn, ht]
    · rw [if_neg ht] at hf
      have hm := findIn_mem rest n s hf
      have hsid : (t.sid == s.sid) = false :=
        beq_eq_false_iff_ne.mpr (fun hh => hts (hh ▸ List.mem_map_of_mem Spreadsheet.sid hm))
      simp only [Bool.not_eq_true] at ht
      simp [appendRowTo, hsid, findIn, ht, ih s hnd2 hf]

theorem appendRow_find_none (n : String) (i : Nat) (row : Row) :
    ∀ (fs : List Spreadsheet), findIn fs n = none →
      findIn (appendRowTo fs i row) n = none := by
  intro fs
  induction fs with
  | nil => intro _; rfl
  | cons t rest ih =>
    intro h
    rw [findIn] at h
    by_cases ht : (t.title == n) = true
    · rw [if_pos ht] at h; exact absurd h (by simp)
    · rw [if_neg ht] at h
      simp only [Bool.not_eq_true] at ht
      by_cases hs : (t.sid == i) = true
      · simp [appendRowTo, hs, findIn, ht, ih h]
      · simp only [Bool.not_eq_true] at hs
        simp [appendRowTo, hs, findIn, ht, ih h]

theorem appendRow_frame (n n' : String) (row : Row) (hne : n' ≠ n) :
    ∀ (fs : List Spreadsheet) (s : Spreadsheet),
      (fs.map Spreadsheet.sid).Nodup → findIn fs n = some s →
      findIn (appendRowTo fs s.sid row) n' = findIn fs n' := by
  intro fs
  induction fs with
  | nil => intro s _ h; simp [findIn] at h
  | cons t rest ih =>
    intro s hnd hf
    simp only [List.map_cons, List.nodup_cons] at hnd
    obtain ⟨hts, hnd2⟩ := hnd
    rw [findIn] at hf
    by_cases ht : (t.title == n) = true
    · rw [if_pos ht] at hf
      injection hf with hf
      subst hf
      have htn2 : (t.title == n') = false := by
        rw [eq_of_beq ht]
        exact beq_eq_false_iff_ne.mpr (fun hh => hne hh.symm)
      simp [appendRowTo, appendRow_not_mem t.sid row rest hts, findIn, htn2]
    · rw [if_neg ht] at hf
      have hm := findIn_mem rest n s hf
      have hsid : (t.sid == s.sid) = false :=
        beq_eq_false_iff_ne.mpr (fun hh => hts (hh ▸ List.mem_map_of_mem Spreadsheet.sid hm))
      by_cases ht2 : (t.title == n') = true
      · simp [appendRowTo, hsid, findIn, ht2]
      · simp only [Bool.not_eq_true] at ht2
        simp [appendRowTo, hsid, findIn, ht2, ih s hnd2 hf]

theorem appendRow_bound (i : Nat) (row : Row) (k : Nat) :
    ∀ (fs : List Spreadsheet), (∀ u ∈ fs, u.sid < k) →
      ∀ u ∈ appendRowTo fs i row, u.sid < k := by
  intro fs
  induction fs with
  | nil => intro _ u hu; simp [appendRowTo] at hu
  | cons t rest ih =>
    intro h u hu
    rw [appendRowTo] at hu
    rcases List.mem_cons.mp hu with hu2 | hu2
    · have ht := h t (List.mem_cons_self t rest)
      by_cases hs : (t.sid == i) = true
      · rw [if_pos hs] at hu2
        rw [hu2]
        exact ht
      · rw [if_neg hs] at hu2
        rw [hu2]
        exact ht
    · exact ih (fun v hv => h v (List.mem_cons_of_mem t hv)) u hu2

theorem sids_lt_not_mem (k : Nat) :
    ∀ (fs : List Spreadsheet), (∀ u ∈ fs, u.sid < k) →
      k ∉ fs.map Spreadsheet.sid := by
  intro fs h hk
  rcases List.mem_map.mp hk with ⟨u, hu, he⟩
  exact absurd (he ▸ h u hu) (lt_irrefl k)

theorem add_to_sheet_wf (cfg : Config) (e : PyDict) (d : DriveState) (hwf : DriveWf d) :
    DriveWf (add_to_sheet cfg d e) := by
  obtain ⟨hnd, hlt⟩ := hwf
  cases hfind : findIn d.files cfg.spreadsheet_name with
  | some s =>
    simp only [add_to_sheet, get_or_create_spreadsheet, hfind]
    exact ⟨by rw [appendRow_sids]; exact hnd, appendRow_bound _ _ _ _ hlt⟩
  | none =>
    simp only [add_to_sheet, get_or_create_spreadsheet, hfind]
    constructor
    · rw [appendRow_sids, List.map_append]
      rw [List.nodup_append]
      refine ⟨hnd, List.nodup_singleton _, ?_⟩
      intro a ha hb
      simp only [List.map_cons, List.map_nil, List.mem_singleton] at hb
      exact sids_lt_not_mem d.nextId d.files hlt (hb ▸ ha)
    · intro u hu
      refine appendRow_bound _ _ _ _ ?_ u hu
      intro v hv
      rcases List.mem_append.mp hv with hv | hv
      · exact Nat.lt_succ_of_lt (hlt v hv)
      · simp only [List.mem_singleton] at hv
        rw [hv]
        exact Nat.lt_succ_self _

theorem add_to_sheet_cells (cfg : Config) (e : PyDict) (d : DriveState) (hwf : DriveWf d) :
    sheetCells (add_to_sheet cfg d e) cfg.spreadsheet_name =
      (if (findIn d.files cfg.spreadsheet_name).isSome then
        sheetCells d cfg.spreadsheet_name
       else [headerRow]) ++ [rowOfDict e] := by
  obtain ⟨hnd, hlt⟩ := hwf
  cases hfind : findIn d.files cfg.spreadsheet_name with
  | some s =>
    simp only [add_to_sheet, get_or_create_spreadsheet, hfind, Option.isSome_some, if_true]
    rw [sheetCells, sheetCells]
    simp only [appendRow_find cfg.spreadsheet_name (rowOfDict e) d.files s hnd hfind, hfind]
  | none =>
    simp only [add_to_sheet, get_or_create_spreadsheet, hfind, Option.isSome_none,
      Bool.false_eq_true, if_false]
    rw [sheetCells]
    rw [appendRow_append, appendRow_not_mem _ _ _ (sids_lt_not_mem d.nextId d.files hlt)]
    rw [findIn_append]
    simp only [hfind]
    simp [appendRowTo, findIn]

theorem add_to_sheet_found (cfg : Config) (e : PyDict) (d : DriveState) (hwf : DriveWf d) :
    (findIn (add_to_sheet cfg d e).files cfg.spreadsheet_name).isSome = true := by
  obtain ⟨hnd, hlt⟩ := hwf
  cases hfind : findIn d.files cfg.spreadsheet_name with
  | some s =>
    simp only [add_to_sheet, get_or_create_spreadsheet, hfind]
    rw [appendRow_find cfg.spreadsheet_name (rowOfDict e) d.files s hnd hfind]
    rfl
  | none =>
    simp only [add_to_sheet, get_or_create_spreadsheet, hfind]
    rw [appendRow_append, appendRow_not_mem _ _ _ (sids_lt_not_mem d.nextId d.files hlt)]
    rw [findIn_append]
    simp only [hfind]
    simp [appendRowTo, findIn]

theorem add_to_sheet_frame (cfg : Config) (e : PyDict) (d : DriveState) (hwf : DriveWf d)
    (n2 : String) (hne : n2 ≠ cfg.spreadsheet_name) :
    sheetCells (add_to_sheet cfg d e) n2 = sheetCells d n2 := by
  obtain ⟨hnd, hlt⟩ := hwf
  cases hfind : findIn d.files cfg.spreadsheet_name with
  | some s =>
    simp only [add_to_sheet, get_or_create_spreadsheet, hfind]
    rw [sheetCells, sheetCells,
      appendRow_frame cfg.spreadsheet_name n2 (rowOfDict e) hne d.files s hnd hfind]
  | none =>
    simp only [add_to_sheet, get_or_create_spreadsheet, hfind]
    rw [sheetCells, sheetCells]
    rw [appendRow_append, appendRow_not_mem _ _ _ (sids_lt_not_mem d.nextId d.files hlt)]
    rw [findIn_append]
    have hbe : (cfg.spreadsheet_name == n2) = false :=
      beq_eq_false_iff_ne.mpr (fun hh => hne hh.symm)
    cases hf2 : findIn d.files n2 with
    | some t => simp [hf2]
    | none => simp [hf2, appendRowTo, findIn, hbe]

theorem add_to_sheet_length (cfg : Config) (e : PyDict) (d : DriveState) (s : Spreadsheet)
    (hfind : findIn d.files cfg.spreadsheet_name = some s) :
    (add_to_sheet cfg d e).files.length = d.files.length := by
  simp only [add_to_sheet, get_or_create_spreadsheet, hfind]
  exact appendRow_length _ _ _

theorem procSheet_wf (cfg : Config) (today : String) :
    ∀ (ms : List Msg) (d : DriveState), DriveWf d → DriveWf (procSheet cfg today d ms) := by
  intro ms
  induction ms with
  | nil => intro d h; exact h
  | cons m ms ih =>
    intro d h
    exact ih _ (add_to_sheet_wf cfg _ d h)

theorem procSheet_cells_found (cfg : Config) (today : String) :
    ∀ (ms : List Msg) (d : DriveState), DriveWf d →
      (findIn d.files cfg.spreadsheet_name).isSome = true →
      sheetCells (procSheet cfg today d ms) cfg.spreadsheet_name =
        sheetCells d cfg.spreadsheet_name ++
          ms.map (fun m => rowOfDict (extract_expense_data m today)) := by
  intro ms
  induction ms with
  | nil => intro d _ _; simp [procSheet]
  | cons m ms ih =>
    intro d hwf hsome
    rw [procSheet]
    rw [ih _ (add_to_sheet_wf cfg _ d hwf) (add_to_sheet_found cfg _ d hwf)]
    rw [add_to_sheet_cells cfg _ d hwf]
    rw [if_pos hsome]
    simp

theorem procSheet_cells (cfg : Config) (today : String) (ms : List Msg) (d : DriveState)
    (hwf : DriveWf d) :
    sheetCells (procSheet cfg today d ms) cfg.spreadsheet_name =
      (if (findIn d.files cfg.spreadsheet_name).isSome then
        sheetCells d cfg.spreadsheet_name
       else if ms.isEmpty then [] else [headerRow]) ++
      ms.map (fun m => rowOfDict (extract_expense_data m today)) := by
  by_cases hsome : (findIn d.files cfg.spreadsheet_name).isSome = true
  · rw [if_pos hsome]
    exact procSheet_cells_found cfg today ms d hwf hsome
  · have hsf : (findIn d.files cfg.spreadsheet_name).isSome = false := by
      simpa using hsome
    rw [if_neg hsome]
    cases ms with
    | nil =>
      simp only [List.isEmpty_nil, if_true, List.map_nil, List.append_nil, List.nil_append]
      rw [procSheet, sheetCells]
      cases hf : findIn d.files cfg.spreadsheet_name with
      | some s => rw [hf] at hsf; simp at hsf
      | none => rfl
    | cons m ms =>
      rw [procSheet]
      rw [procSheet_cells_found cfg today ms _ (add_to_sheet_wf cfg _ d hwf)
        (add_to_sheet_found cfg _ d hwf)]
      rw [add_to_sheet_cells cfg _ d hwf]
      rw [if_neg hsome]
      simp

theorem procSheet_frame (cfg : Config) (today : String) (n2 : String)
    (hne : n2 ≠ cfg.spreadsheet_name) :
    ∀ (ms : List Msg) (d : DriveState), DriveWf d →
      sheetCells (procSheet cfg today d ms) n2 = sheetCells d n2 := by
  intro ms
  induction ms with
  | nil => intro d _; rfl
  | cons m ms ih =>
    intro d hwf
    rw [procSheet, ih _ (add_to_sheet_wf cfg _ d hwf), add_to_sheet_frame cfg _ d hwf n2 hne]

theorem pyTruthy_extract (m : Msg) (today : String) :
    pyTruthyDict (extract_expense_data m today) = true := rfl

theorem processOne_cons (cfg : Config) (today : String) (m : Msg) (ms : List Msg)
    (d : DriveState) (lg : List String) (i : Nat) :
    processOne cfg today { msgs := m :: ms, drive := d, log := lg } (i + 1) =
      { msgs := m :: (processOne cfg today { msgs := ms, drive := d, log := lg } i).msgs,
        drive := (processOne cfg today { msgs := ms, drive := d, log := lg } i).drive,
        log := (processOne cfg today { msgs := ms, drive := d, log := lg } i).log } := by
  simp only [processOne, List.getElem?_cons_succ]
  cases h : ms[i]? with
  | none => rfl
  | some mm =>
    cases hf : mm.fetchErr with
    | some e => simp [hf]
    | none =>
      simp [hf, pyTruthyDict, extract_expense_data, List.set]

theorem processLoop_cons (cfg : Config) (today : String) (st : WorldState) (i : Nat)
    (ids : List Nat) :
    processLoop cfg today st (i :: ids) =
      processLoop cfg today (processOne cfg today st i) ids := rfl

theorem processLoop_shift (cfg : Config) (today : String) :
    ∀ (ids : List Nat) (m : Msg) (ms : List Msg) (d : DriveState) (lg : List String),
    processLoop cfg today { msgs := m :: ms, drive := d, log := lg } (ids.map (· + 1)) =
      { msgs := m :: (processLoop cfg today { msgs := ms, drive := d, log := lg } ids).msgs,
        drive := (processLoop cfg today { msgs := ms, drive := d, log := lg } ids).drive,
        log := (processLoop cfg today { msgs := ms, drive := d, log := lg } ids).log } := by
  intro ids
  induction ids with
  | nil => intro m ms d lg; rfl
  | cons i ids ih =>
    intro m ms d lg
    simp only [List.map_cons, processLoop_cons]
    rw [processOne_cons]
    exact ih m _ _ _

theorem searchIds_nil_iff : ∀ (ms : List Msg),
    searchUnseenSubjectIds ms = [] ↔ ms.filter matchesFilter = [] := by
  intro ms
  induction ms with
  | nil => simp [searchUnseenSubjectIds]
  | cons m ms ih =>
    cases hm : matchesFilter m with
    | true => simp [searchUnseenSubjectIds, hm, List.filter_cons]
    | false => simp [searchUnseenSubjectIds, hm, List.filter_cons, ih]

theorem no_match_map_procStep : ∀ (ms : List Msg),
    ms.filter matchesFilter = [] → ms.map procStep = ms := by
  intro ms
  induction ms with
  | nil => intro _; rfl
  | cons m ms ih =>
    intro h
    cases hm : matchesFilter m with
    | true => simp [List.filter_cons, hm] at h
    | false =>
      simp only [List.filter_cons, hm, Bool.false_eq_true, if_false] at h
      rw [List.map_cons, ih h]
      simp [procStep, hm]

theorem no_match_filter_procOk : ∀ (ms : List Msg),
    ms.filter matchesFilter = [] → ms.filter procOkFilter = [] := by
  intro ms
  induction ms with
  | nil => intro _; rfl
  | cons m ms ih =>
    intro h
    cases hm : matchesFilter m with
    | true => simp [List.filter_cons, hm] at h
    | false =>
      simp only [List.filter_cons, hm, Bool.false_eq_true, if_false] at h
      simp [List.filter_cons, procOkFilter, hm, ih h]

theorem procLogs_append : ∀ (xs ys : List Msg),
    procLogs (xs ++ ys) = procLogs xs ++ procLogs ys := by
  intro xs ys
  induction xs with
  | nil => rfl
  | cons m xs ih => simp [procLogs, ih]

theorem processLoop_search_spec (cfg : Config) (today : String) :
    ∀ (ms : List Msg) (d : DriveState) (lg : List String),
    processLoop cfg today { msgs := ms, drive := d, log := lg } (searchUnseenSubjectIds ms) =
      { msgs := ms.map procStep,
        drive := procSheet cfg today d (ms.filter procOkFilter),
        log := lg ++ procLogs (ms.filter matchesFilter) } := by
  intro ms
  induction ms with
  | nil =>
    intro d lg
    simp [processLoop, searchUnseenSubjectIds, procSheet, procLogs]
  | cons m ms ih =>
    intro d lg
    cases hm : matchesFilter m with
    | false =>
      simp only [searchUnseenSubjectIds, hm, Bool.false_eq_true, if_false, List.nil_append]
      rw [processLoop_shift cfg today (searchUnseenSubjectIds ms) m ms d lg]
      rw [ih d lg]
      have hok : procOkFilter m = false := by simp [procOkFilter, hm]
      have hstep : procStep m = m := by simp [procStep, hm]
      simp [List.filter_cons, hm, hok, hstep]
    | true =>
      simp only [searchUnseenSubjectIds, hm, if_true, List.singleton_append, List.cons_append,
        List.nil_append]
      rw [processLoop_cons]
      cases hf : m.fetchErr with
      | some e =>
        have h0 : processOne cfg today { msgs := m :: ms, drive := d, log := lg } 0 =
            { msgs := m :: ms, drive := d,
              log := lg ++ ["Error processing message: " ++ e] } := by
          simp [processOne, hf]
        rw [h0, processLoop_shift cfg today (searchUnseenSubjectIds ms) m ms d _, ih d _]
        have hok : procOkFilter m = false := by
          simp [procOkFilter, Msg.fetchOk, hf]
        have hstep : procStep m = m := by
          simp [procStep, Msg.fetchOk, hf]
        simp [List.filter_cons, hm, hok, hstep, procLogs, procLog, hf, List.append_assoc]
      | none =>
        have h0 : processOne cfg today { msgs := m :: ms, drive := d, log := lg } 0 =
            { msgs := { m with read := true } :: ms,
              drive := add_to_sheet cfg d (extract_expense_data m today),
              log := lg ++ ["Processing email: " ++ m.subject,
                            "Successfully processed: " ++ m.subject] } := by
          simp [processOne, hf, pyTruthyDict, extract_expense_data, List.set]
        rw [h0, processLoop_shift cfg today (searchUnseenSubjectIds ms) { m with read := true }
          ms _ _, ih _ _]
        have hok : procOkFilter m = true := by
          simp [procOkFilter, Msg.fetchOk, hf, hm]
        have hstep : procStep m = { m with read := true } := by
          simp [procStep, Msg.fetchOk, hf, hm]
        simp [List.filter_cons, hm, hok, hstep, procSheet, procLogs, procLog, hf,
          List.append_assoc]

theorem finallyLogout_ok (conn : ConnSpec) (b : Bool) :
    finallyLogout conn b = PyResult.ok () := by
  rw [finallyLogout]
  cases b with
  | false => rfl
  | true => cases h : conn.logoutErr <;> simp [h]

theorem process_emails_logoutAttempted (cfg : Config) (conn : ConnSpec) (today : String)
    (st : WorldState) : (process_emails cfg conn today st).logoutAttempted = true := rfl

theorem process_emails_logoutResult (cfg : Config) (conn : ConnSpec) (today : String)
    (st : WorldState) : (process_emails cfg conn today st).logoutResult = PyResult.ok () :=
  finallyLogout_ok conn conn.connectErr.isNone

theorem process_emails_abort (cfg : Config) (conn : ConnSpec) (today : String)
    (st : WorldState) (e : String)
    (h : conn.connectErr = some e ∨ (conn.connectErr = none ∧ conn.loginErr = some e)) :
    (process_emails cfg conn today st).state =
      { msgs := st.msgs, drive := st.drive,
        log := st.log ++ ["Error connecting to email: " ++ e] } := by
  rcases h with h | ⟨h1, h2⟩
  · simp [process_emails, tryBody, h]
  · simp [process_emails, tryBody, h1, h2]

theorem process_emails_empty_spec (cfg : Config) (conn : ConnSpec) (today : String)
    (st : WorldState) (hc : conn.connectErr = none) (hl : conn.loginErr = none)
    (hemp : st.msgs.filter matchesFilter = []) :
    (process_emails cfg conn today st).state =
      { msgs := st.msgs, drive := st.drive,
        log := st.log ++ ["Connected to email: " ++ conn.emailUser,
                          "No new receipts or invoices found."] } := by
  have hids : searchUnseenSubjectIds st.msgs = [] := (searchIds_nil_iff st.msgs).mpr hemp
  simp [process_emails, tryBody, hc, hl, hids]

theorem process_emails_run_spec (cfg : Config) (conn : ConnSpec) (today : String)
    (st : WorldState) (hc : conn.connectErr = none) (hl : conn.loginErr = none)
    (hne : st.msgs.filter matchesFilter ≠ []) :
    (process_emails cfg conn today st).state =
      { msgs := st.msgs.map procStep,
        drive := procSheet cfg today st.drive (st.msgs.filter procOkFilter),
        log := st.log ++ ["Connected to email: " ++ conn.emailUser,
                "Found " ++ toString (searchUnseenSubjectIds st.msgs).length ++
                  " new messages to process."] ++
               procLogs (st.msgs.filter matchesFilter) } := by
  have hids : ¬ searchUnseenSubjectIds st.msgs = [] :=
    fun hh => hne ((searchIds_nil_iff st.msgs).mp hh)
  have hids2 : (searchUnseenSubjectIds st.msgs).isEmpty = false := by
    cases hs : searchUnseenSubjectIds st.msgs with
    | nil => exact absurd hs hids
    | cons a l => rfl
  simp only [process_emails, tryBody, hc, hl, hids2, Bool.false_eq_true, if_false]
  rw [processLoop_search_spec cfg today st.msgs st.drive _]
  simp [List.append_assoc]

theorem process_emails_state_components (cfg : Config) (conn : ConnSpec) (today : String)
    (st : WorldState) (hc : conn.connectErr = none) (hl : conn.loginErr = none) :
    (process_emails cfg conn today st).state.msgs = st.msgs.map procStep ∧
    (process_emails cfg conn today st).state.drive =
      procSheet cfg today st.drive (st.msgs.filter procOkFilter) := by
  by_cases hemp : st.msgs.filter matchesFilter = []
  · rw [process_emails_empty_spec cfg conn today st hc hl hemp]
    constructor
    · exact (no_match_map_procStep st.msgs hemp).symm
    · rw [no_match_filter_procOk st.msgs hemp]
      rfl
  · rw [process_emails_run_spec cfg conn today st hc hl hemp]
    exact ⟨rfl, rfl⟩

/-- Concrete configuration used by the witness theorems. -/
def cfgW : Config :=
  { imap_server := "imap.example.com", imap_port := 993,
    spreadsheet_name := "Expense Tracker", worksheet_name := "Expenses" }

/-- Concrete healthy connection used by the witness theorems. -/
def connW : ConnSpec :=
  { connectErr := none, loginErr := none, logoutErr := none,
    emailUser := "user@example.com" }

/-- Witness message: unread, matching subject, fetch succeeds. -/
def msgRcptW : Msg :=
  { subject := "your receipt is here", msgDate := "2026-01-01", read := false, fetchErr := none }

/-- Witness message: unread, matching subject, fetch raises. -/
def msgFailW : Msg :=
  { subject := "invoice 7", msgDate := "2026-01-02", read := false, fetchErr := some "boom" }

/-- Witness message: unread but not matching the subject filter. -/
def msgOtherW : Msg :=
  { subject := "hello", msgDate := "2026-01-03", read := false, fetchErr := none }

/-- Witness message: matching subject but already read. -/
def msgReadW : Msg :=
  { subject := "receipt", msgDate := "2026-01-04", read := true, fetchErr := none }

/-- Witness inbox. -/
def msgsW : List Msg := [msgRcptW, msgFailW, msgOtherW, msgReadW]

/-- Witness spreadsheet already stored on Drive under the configured name. -/
def sheetW : Spreadsheet :=
  { sid := 1, title := "Expense Tracker", worksheetTitle := "Expenses",
    frozenRowCount := 1, cells := [headerRow] }

/-- Witness Drive state holding `sheetW`. -/
def driveW : DriveState := { files := [sheetW], nextId := 5 }

/-- Witness world. -/
def stW : WorldState := { msgs := msgsW, drive := driveW, log := [] }

/-- Witness world with no matching message and an empty Drive. -/
def stEmptyW : WorldState :=
  { msgs := [msgOtherW, msgReadW], drive := { files := [], nextId := 0 }, log := [] }

/-- Claim C2: for every email message, extraction returns the four-field
record with description equal to the message subject verbatim, amount 0.0,
category "Other", and date equal to the run-time date — independent of the
message's own date header and flags — and in particular a message with
subject "Invoice #123" yields exactly the record
(date = today, description = "Invoice #123", amount = 0.0,
category = "Other"). -/
theorem C2_extraction_fixed_record (m : Msg) (today : String) :
    extract_expense_data m today =
      [("date", PyVal.str today),
       ("description", PyVal.str m.subject),
       ("amount", PyVal.num 0),
       ("category", PyVal.str "Other")] ∧
    dictGet (extract_expense_data m today) "description" = PyVal.str m.subject ∧
    dictGet (extract_expense_data m today) "amount" = PyVal.num 0 ∧
    dictGet (extract_expense_data m today) "category" = PyVal.str "Other" ∧
    dictGet (extract_expense_data m today) "date" = PyVal.str today ∧
    (∀ (s d1 d2 : String) (r1 r2 : Bool) (f1 f2 : Option String),
      extract_expense_data ⟨s, d1, r1, f1⟩ today = extract_expense_data ⟨s, d2, r2, f2⟩ today) ∧
    extract_expense_data
        { subject := "Invoice #123", msgDate := m.msgDate, read := m.read,
          fetchErr := m.fetchErr } today =
      [("date", PyVal.str today),
       ("description", PyVal.str "Invoice #123"),
       ("amount", PyVal.num 0),
       ("category", PyVal.str "Other")] := by
  refine ⟨rfl, ?_, ?_, ?_, ?_, fun s d1 d2 r1 r2 f1 f2 => rfl, rfl⟩ <;>
    simp [extract_expense_data, dictGet]

/-- Claim C3 (refuted; the code is at fault): the criteria string issued at
`src/main.py:69` does not even parse under the RFC 3501 search-key grammar —
`OR` is a two-operand prefix key and the issued string leaves it a single
operand — so the issued query is not equivalent to the filter "unread AND
(subject contains receipt OR subject contains invoice)"; an RFC-compliant
server rejects the SEARCH and the run aborts.  The repaired prefix form
parses exactly to the intended filter, confirming the parser itself accepts
the grammar the claim appeals to. -/
theorem C3_issued_query_ungrammatical :
    parseSearchQuery issuedSearchQuery = none ∧
    parseSearchQuery "(UNSEEN OR SUBJECT \"receipt\" SUBJECT \"invoice\")" =
      some (SearchKey.andKey SearchKey.unseen
        (SearchKey.orKey (SearchKey.subjectKey "receipt") (SearchKey.subjectKey "invoice"))) ∧
    (∀ m : Msg,
      SearchKey.matches
        (SearchKey.andKey SearchKey.unseen
          (SearchKey.orKey (SearchKey.subjectKey "receipt") (SearchKey.subjectKey "invoice"))) m =
        matchesFilter m) := by
  refine ⟨by decide, by decide, fun m => ?_⟩
  simp [SearchKey.matches, matchesFilter]

/-- Claim C10: `extract_expense_data` is total and always returns a truthy
(non-empty) dict, so the `if expense_data:` guard always takes the append
branch: the loop body for any successfully fetched message appends its row
and sets its read flag. -/
theorem C10_extract_total_guard_taken (cfg : Config) (today : String) (st : WorldState)
    (i : Nat) (m : Msg) (hget : st.msgs[i]? = some m) (hok : m.fetchErr = none) :
    (∀ (m2 : Msg) (d2 : String), pyTruthyDict (extract_expense_data m2 d2) = true) ∧
    processOne cfg today st i =
      { msgs := st.msgs.set i { m with read := true },
        drive := add_to_sheet cfg st.drive (extract_expense_data m today),
        log := st.log ++ ["Processing email: " ++ m.subject,
                          "Successfully processed: " ++ m.subject] } := by
  refine ⟨fun m2 d2 => rfl, ?_⟩
  simp [processOne, hget, hok, pyTruthyDict, extract_expense_data]

/-- Witness for C10 at a concrete world: message 0 of the witness inbox is
fetched successfully, and the loop body appends and marks it read. -/
theorem C10_witness :
    stW.msgs[0]? = some msgRcptW ∧ msgRcptW.fetchErr = none ∧
    processOne cfgW "2026-10-12" stW 0 =
      { msgs := stW.msgs.set 0 { msgRcptW with read := true },
        drive := add_to_sheet cfgW stW.drive (extract_expense_data msgRcptW "2026-10-12"),
        log := stW.log ++ ["Processing email: " ++ msgRcptW.subject,
                           "Successfully processed: " ++ msgRcptW.subject] } :=
  ⟨rfl, rfl,
    (C10_extract_total_guard_taken cfgW "2026-10-12" stW 0 msgRcptW rfl rfl).2⟩

/-- Claim C1: over one run with a healthy connection, every unread message
matching the receipt/invoice filter that is processed without error
contributes exactly one appended row (its record's row, in message order) and
comes back with its read flag set, while every other message comes back
unchanged; and the run touches no spreadsheet other than the configured one.
The final message list is exactly `map procStep`, the configured sheet's
cells are exactly the old cells (or a fresh header) plus one row per
successfully processed matching message, and every other sheet keeps its
cells. -/
theorem C1_one_row_per_processed_message (cfg : Config) (conn : ConnSpec) (today : String)
    (st : WorldState) (hc : conn.connectErr = none) (hl : conn.loginErr = none)
    (hwf : DriveWf st.drive) :
    (process_emails cfg conn today st).state.msgs = st.msgs.map procStep ∧
    sheetCells (process_emails cfg conn today st).state.drive cfg.spreadsheet_name =
      (if (findIn st.drive.files cfg.spreadsheet_name).isSome then
        sheetCells st.drive cfg.spreadsheet_name
       else if (st.msgs.filter procOkFilter).isEmpty then [] else [headerRow]) ++
      (st.msgs.filter procOkFilter).map (fun m => rowOfDict (extract_expense_data m today)) ∧
    (∀ n2, n2 ≠ cfg.spreadsheet_name →
      sheetCells (process_emails cfg conn today st).state.drive n2 =
        sheetCells st.drive n2) := by
  obtain ⟨hm, hd⟩ := process_emails_state_components cfg conn today st hc hl
  refine ⟨hm, ?_, ?_⟩
  · rw [hd]
    exact procSheet_cells cfg today _ st.drive hwf
  · intro n2 hne
    rw [hd]
    exact procSheet_frame cfg today n2 hne _ st.drive hwf

/-- Witness for C1 at the concrete run: the witness world satisfies the
hypotheses and its final message list is `map procStep` of the inbox. -/
theorem C1_witness :
    connW.connectErr = none ∧ connW.loginErr = none ∧ DriveWf stW.drive ∧
    (process_emails cfgW connW "2026-10-12" stW).state.msgs = stW.msgs.map procStep :=
  ⟨rfl, rfl, ⟨by decide, by decide⟩,
    (C1_one_row_per_processed_message cfgW connW "2026-10-12" stW rfl rfl
      ⟨by decide, by decide⟩).1⟩

/-- Claim C4: when the fetch of one message among those searched raises, the
error is caught and printed, that message is skipped (left unchanged), and
the remaining messages are still processed: the final message list treats
every other message normally, and the sheet receives exactly the rows of the
other successfully processed matching messages, as if the failing message
were absent. -/
theorem C4_error_skipped_rest_processed (cfg : Config) (conn : ConnSpec) (today : String)
    (st : WorldState) (pre post : List Msg) (m : Msg) (e : String)
    (hc : conn.connectErr = none) (hl : conn.loginErr = none)
    (hsplit : st.msgs = pre ++ m :: post)
    (hmatch : matchesFilter m = true) (herr : m.fetchErr = some e) :
    ("Error processing message: " ++ e) ∈ (process_emails cfg conn today st).state.log ∧
    (process_emails cfg conn today st).state.msgs =
      pre.map procStep ++ m :: post.map procStep ∧
    (process_emails cfg conn today st).state.drive =
      procSheet cfg today st.drive ((pre ++ post).filter procOkFilter) := by
  have hne : st.msgs.filter matchesFilter ≠ [] := by
    rw [hsplit, List.filter_append, List.filter_cons]
    simp [hmatch]
  have hspec := process_emails_run_spec cfg conn today st hc hl hne
  rw [hspec]
  have hstep : procStep m = m := by
    simp [procStep, Msg.fetchOk, herr]
  have hok : procOkFilter m = false := by
    simp [procOkFilter, Msg.fetchOk, herr]
  refine ⟨?_, ?_, ?_⟩
  · simp only [hsplit, List.filter_append, List.filter_cons, hmatch, if_true]
    simp [procLogs_append, procLogs, procLog, herr, List.mem_append]
  · rw [hsplit, List.map_append, List.map_cons, hstep]
  · rw [hsplit]
    simp [List.filter_append, List.filter_cons, hok]

/-- Witness for C4 at the concrete run: message 1 of the witness inbox
matches the filter but its fetch raises "boom"; the error line lands in the
log. -/
theorem C4_witness :
    connW.connectErr = none ∧ connW.loginErr = none ∧
    stW.msgs = [msgRcptW] ++ msgFailW :: [msgOtherW, msgReadW] ∧
    matchesFilter msgFailW = true ∧ msgFailW.fetchErr = some "boom" ∧
    ("Error processing message: " ++ "boom") ∈
      (process_emails cfgW connW "2026-10-12" stW).state.log :=
  ⟨rfl, rfl, rfl, by decide, rfl,
    (C4_error_skipped_rest_processed cfgW connW "2026-10-12" stW [msgRcptW]
      [msgOtherW, msgReadW] msgFailW "boom" rfl rfl rfl (by decide) rfl).1⟩

/-- Claim C6: a message that does not match the subject filter, or whose read
flag is already set, is left exactly as it was (in particular its read flag
is unchanged), the rows appended to the configured sheet are exactly those of
the filter-matching successfully fetched messages, and every message
contributing a row does match the filter. -/
theorem C6_nonmatching_left_untouched (cfg : Config) (conn : ConnSpec) (today : String)
    (st : WorldState) (i : Nat) (m : Msg)
    (hc : conn.connectErr = none) (hl : conn.loginErr = none) (hwf : DriveWf st.drive)
    (hget : st.msgs[i]? = some m) (hnm : matchesFilter m = false) :
    (process_emails cfg conn today st).state.msgs[i]? = some m ∧
    sheetCells (process_emails cfg conn today st).state.drive cfg.spreadsheet_name =
      (if (findIn st.drive.files cfg.spreadsheet_name).isSome then
        sheetCells st.drive cfg.spreadsheet_name
       else if (st.msgs.filter procOkFilter).isEmpty then [] else [headerRow]) ++
      (st.msgs.filter procOkFilter).map (fun m2 => rowOfDict (extract_expense_data m2 today)) ∧
    (∀ m2 ∈ st.msgs.filter procOkFilter, matchesFilter m2 = true) := by
  obtain ⟨hm, hd⟩ := process_emails_state_components cfg conn today st hc hl
  refine ⟨?_, ?_, ?_⟩
  · rw [hm, List.getElem?_map, hget]
    simp [procStep, hnm]
  · rw [hd]
    exact procSheet_cells cfg today _ st.drive hwf
  · intro m2 hm2
    have h2 : procOkFilter m2 = true := (List.mem_filter.mp hm2).2
    simp only [procOkFilter, Bool.and_eq_true] at h2
    exact h2.1

/-- Witness for C6 at the concrete run: message 3 of the witness inbox has a
matching subject but is already read, so it comes back untouched. -/
theorem C6_witness :
    connW.connectErr = none ∧ connW.loginErr = none ∧ DriveWf stW.drive ∧
    stW.msgs[3]? = some msgReadW ∧ matchesFilter msgReadW = false ∧
    (process_emails cfgW connW "2026-10-12" stW).state.msgs[3]? = some msgReadW :=
  ⟨rfl, rfl, ⟨by decide, by decide⟩, rfl, by decide,
    (C6_nonmatching_left_untouched cfgW connW "2026-10-12" stW 3 msgReadW rfl rfl
      ⟨by decide, by decide⟩ rfl (by decide)).1⟩

/-- Claim C5: when no spreadsheet of the configured name exists, the
get-or-create step creates exactly one new spreadsheet holding a single named
worksheet with frozen first row and the header row
["Date","Description","Amount","Category"], returning its fresh id; when one
already exists, its id is returned unchanged and appending a record adds its
row to that same spreadsheet without creating any new file. -/
theorem C5_get_or_create_spreadsheet_spec (cfg : Config) (d : DriveState) (e : PyDict)
    (hwf : DriveWf d) :
    (findIn d.files cfg.spreadsheet_name = none →
      get_or_create_spreadsheet cfg d =
        ({ files := d.files ++
            [{ sid := d.nextId, title := cfg.spreadsheet_name,
               worksheetTitle := cfg.worksheet_name, frozenRowCount := 1,
               cells := [headerRow] }],
           nextId := d.nextId + 1 }, d.nextId)) ∧
    (∀ s, findIn d.files cfg.spreadsheet_name = some s →
      get_or_create_spreadsheet cfg d = (d, s.sid) ∧
      (add_to_sheet cfg d e).files.length = d.files.length ∧
      sheetCells (add_to_sheet cfg d e) cfg.spreadsheet_name =
        sheetCells d cfg.spreadsheet_name ++ [rowOfDict e]) := by
  constructor
  · intro hnone
    simp [get_or_create_spreadsheet, hnone]
  · intro s hsome
    refine ⟨by simp [get_or_create_spreadsheet, hsome],
      add_to_sheet_length cfg e d s hsome, ?_⟩
    rw [add_to_sheet_cells cfg e d hwf]
    rw [if_pos (by rw [hsome]; rfl)]

/-- Witness for C5 at a concrete Drive: the witness Drive already stores a
spreadsheet named "Expense Tracker" and its id is returned unchanged. -/
theorem C5_witness :
    DriveWf driveW ∧ findIn driveW.files cfgW.spreadsheet_name = some sheetW ∧
    get_or_create_spreadsheet cfgW driveW = (driveW, sheetW.sid) :=
  ⟨⟨by decide, by decide⟩, by decide,
    ((C5_get_or_create_spreadsheet_spec cfgW driveW
        (extract_expense_data msgRcptW "2026-10-12") ⟨by decide, by decide⟩).2 sheetW
      (by decide)).1⟩

/-- Claim C7 as stated is false at the code: the claim requires exactly two
API scopes, but the scope list the code requests has three entries
(spreadsheets, Gmail read-only, Drive). -/
theorem C7_counterexample_not_two_scopes : ¬ SCOPES.length = 2 := by decide

/-- Claim C7, amended to the code's three scopes: authentication produces a
valid, non-expired credential for the three requested API scopes; a valid
cached token is reused as is, an expired refreshable one is refreshed
silently without the interactive flow, otherwise the interactive flow runs;
any newly obtained credential is written to the token file, so the token file
always ends up holding the credential in use.  The library-side guarantees
(a valid credential is non-expired; refresh and consent return valid
credentials for the requested scopes) are hypotheses. -/
theorem C7_amended_credential_flow (env : AuthEnv)
    (hcache : ∀ c, env.cached = some c →
      (c.valid = true → c.expired = false) ∧ c.scopes = SCOPES)
    (hrefresh : env.refreshResult.valid = true ∧ env.refreshResult.expired = false ∧
      env.refreshResult.scopes = SCOPES)
    (hflow : env.flowResult.valid = true ∧ env.flowResult.expired = false ∧
      env.flowResult.scopes = SCOPES) :
    SCOPES.length = 3 ∧
    (authenticate_google env).creds.valid = true ∧
    (authenticate_google env).creds.expired = false ∧
    (authenticate_google env).creds.scopes = SCOPES ∧
    tokenFileAfter env = some (authenticate_google env).creds ∧
    (∀ c, env.cached = some c → c.valid = true →
      authenticate_google env =
        { creds := c, ranInteractiveFlow := false, wroteTokenFile := none }) ∧
    (∀ c, env.cached = some c → c.valid = false → c.expired = true →
      c.hasRefreshToken = true →
      authenticate_google env =
        { creds := env.refreshResult, ranInteractiveFlow := false,
          wroteTokenFile := some env.refreshResult }) ∧
    (env.cached = none →
      authenticate_google env =
        { creds := env.flowResult, ranInteractiveFlow := true,
          wroteTokenFile := some env.flowResult }) := by
  obtain ⟨hrv, hre, hrs⟩ := hrefresh
  obtain ⟨hfv, hfe, hfs⟩ := hflow
  cases hc : env.cached with
  | none =>
    have ha : authenticate_google env =
        { creds := env.flowResult, ranInteractiveFlow := true,
          wroteTokenFile := some env.flowResult } := by
      simp [authenticate_google, hc]
    refine ⟨by decide, ?_, ?_, ?_, ?_, ?_, ?_, fun _ => ha⟩
    · rw [ha]; exact hfv
    · rw [ha]; exact hfe
    · rw [ha]; exact hfs
    · simp only [tokenFileAfter, ha]
    · intro c hcc _
      exact Option.noConfusion hcc
    · intro c hcc _ _ _
      exact Option.noConfusion hcc
  | some c0 =>
    obtain ⟨hcv, hcs⟩ := hcache c0 hc
    cases hv : c0.valid with
    | true =>
      have ha : authenticate_google env =
          { creds := c0, ranInteractiveFlow := false, wroteTokenFile := none } := by
        simp [authenticate_google, hc, hv]
      refine ⟨by decide, ?_, ?_, ?_, ?_, ?_, ?_, ?_⟩
      · rw [ha]; exact hv
      · rw [ha]; exact hcv hv
      · rw [ha]; exact hcs
      · simp only [tokenFileAfter, ha, hc]
      · intro c hcc _
        rw [← Option.some.inj hcc]
        exact ha
      · intro c hcc hvc _ _
        rw [← Option.some.inj hcc, hv] at hvc
        exact Bool.noConfusion hvc
      · intro hcc
        exact Option.noConfusion hcc
    | false =>
      cases hrc : (c0.expired && c0.hasRefreshToken) with
      | true =>
        have ha : authenticate_google env =
            { creds := env.refreshResult, ranInteractiveFlow := false,
              wroteTokenFile := some env.refreshResult } := by
          simp [authenticate_google, hc, hv, hrc]
        refine ⟨by decide, ?_, ?_, ?_, ?_, ?_, ?_, ?_⟩
        · rw [ha]; exact hrv
        · rw [ha]; exact hre
        · rw [ha]; exact hrs
        · simp only [tokenFileAfter, ha]
        · intro c hcc hvc
          rw [← Option.some.inj hcc, hv] at hvc
          exact Bool.noConfusion hvc
        · intro c hcc _ _ _
          exact ha
        · intro hcc
          exact Option.noConfusion hcc
      | false =>
        have ha : authenticate_google env =
            { creds := env.flowResult, ranInteractiveFlow := true,
              wroteTokenFile := some env.flowResult } := by
          simp [authenticate_google, hc, hv, hrc]
        refine ⟨by decide, ?_, ?_, ?_, ?_, ?_, ?_, ?_⟩
        · rw [ha]; exact hfv
        · rw [ha]; exact hfe
        · rw [ha]; exact hfs
        · simp only [tokenFileAfter, ha]
        · intro c hcc hvc
          rw [← Option.some.inj hcc, hv] at hvc
          exact Bool.noConfusion hvc
        · intro c hcc _ hec hrtc
          rw [← Option.some.inj hcc] at hec hrtc
          rw [hec, hrtc] at hrc
          exact Bool.noConfusion hrc
        · intro hcc
          exact Option.noConfusion hcc

/-- Witness credential for C7: valid, non-expired, refreshable, issued for
the three scopes. -/
def credValidW : Creds :=
  { valid := true, expired := false, hasRefreshToken := true, scopes := SCOPES }

/-- Witness authentication environment: a valid cached token. -/
def envW : AuthEnv :=
  { cached := some credValidW, refreshResult := credValidW, flowResult := credValidW }

/-- Witness for the amended C7 at a concrete environment with a valid cached
token. -/
theorem C7_witness :
    (∀ c, envW.cached = some c →
      (c.valid = true → c.expired = false) ∧ c.scopes = SCOPES) ∧
    (envW.refreshResult.valid = true ∧ envW.refreshResult.expired = false ∧
      envW.refreshResult.scopes = SCOPES) ∧
    (envW.flowResult.valid = true ∧ envW.flowResult.expired = false ∧
      envW.flowResult.scopes = SCOPES) ∧
    SCOPES.length = 3 ∧ (authenticate_google envW).creds.valid = true := by
  have h1 : ∀ c, envW.cached = some c →
      (c.valid = true → c.expired = false) ∧ c.scopes = SCOPES := by
    intro c hcc
    injection hcc with h
    subst h
    exact ⟨fun _ => rfl, rfl⟩
  have h2 : envW.refreshResult.valid = true ∧ envW.refreshResult.expired = false ∧
      envW.refreshResult.scopes = SCOPES := ⟨rfl, rfl, rfl⟩
  have h3 : envW.flowResult.valid = true ∧ envW.flowResult.expired = false ∧
      envW.flowResult.scopes = SCOPES := ⟨rfl, rfl, rfl⟩
  have hmain := C7_amended_credential_flow envW h1 h2 h3
  exact ⟨h1, h2, h3, hmain.1, hmain.2.1⟩

/-- Claim C8: a connection-level failure (the mailbox connect raising, or the
login raising) aborts the whole run — the inbox, the Drive, and the log
except for the one error line are untouched, so no message is processed —
while the `finally` block still attempts the logout, and that best-effort
disconnect can never raise out of the run. -/
theorem C8_connection_failure_aborts (cfg : Config) (conn : ConnSpec) (today : String)
    (st : WorldState) (e : String)
    (h : conn.connectErr = some e ∨ (conn.connectErr = none ∧ conn.loginErr = some e)) :
    (process_emails cfg conn today st).state.msgs = st.msgs ∧
    (process_emails cfg conn today st).state.drive = st.drive ∧
    (process_emails cfg conn today st).state.log =
      st.log ++ ["Error connecting to email: " ++ e] ∧
    (process_emails cfg conn today st).logoutAttempted = true ∧
    (process_emails cfg conn today st).logoutResult = PyResult.ok () ∧
    (∀ (c : ConnSpec) (b : Bool), finallyLogout c b = PyResult.ok ()) := by
  have habort := process_emails_abort cfg conn today st e h
  rw [habort]
  exact ⟨rfl, rfl, rfl, process_emails_logoutAttempted cfg conn today st,
    process_emails_logoutResult cfg conn today st, fun c b => finallyLogout_ok c b⟩

/-- Witness connection for C8: the mailbox connect raises. -/
def connFailW : ConnSpec :=
  { connectErr := some "conn refused", loginErr := none, logoutErr := none,
    emailUser := "user@example.com" }

/-- Witness for C8 at a concrete failing connection. -/
theorem C8_witness :
    (connFailW.connectErr = some "conn refused" ∨
      (connFailW.connectErr = none ∧ connFailW.loginErr = some "conn refused")) ∧
    (process_emails cfgW connFailW "2026-10-12" stW).state.msgs = stW.msgs :=
  ⟨Or.inl rfl,
    (C8_connection_failure_aborts cfgW connFailW "2026-10-12" stW "conn refused"
      (Or.inl rfl)).1⟩

/-- Claim C9: with a healthy connection but no message matching the search,
`process_emails` returns after the "no new receipts" print: the Drive state
is untouched (in particular no spreadsheet is created even when none exists)
and the inbox is untouched. -/
theorem C9_no_matches_early_return (cfg : Config) (conn : ConnSpec) (today : String)
    (st : WorldState) (hc : conn.connectErr = none) (hl : conn.loginErr = none)
    (hemp : st.msgs.filter matchesFilter = []) :
    (process_emails cfg conn today st).state.drive = st.drive ∧
    (process_emails cfg conn today st).state.msgs = st.msgs ∧
    (process_emails cfg conn today st).state.log =
      st.log ++ ["Connected to email: " ++ conn.emailUser,
                 "No new receipts or invoices found."] := by
  rw [process_emails_empty_spec cfg conn today st hc hl hemp]
  exact ⟨rfl, rfl, rfl⟩

/-- Witness for C9 at a concrete world whose inbox has no matching message
and whose Drive is empty: the Drive stays empty. -/
theorem C9_witness :
    connW.connectErr = none ∧ connW.loginErr = none ∧
    stEmptyW.msgs.filter matchesFilter = [] ∧
    (process_emails cfgW connW "2026-10-12" stEmptyW).state.drive = stEmptyW.drive :=
  ⟨rfl, rfl, by decide,
    (C9_no_matches_early_return cfgW connW "2026-10-12" stEmptyW rfl rfl (by decide)).1⟩

end ExpenseTracker
